import Mathlib

/-!
Verification of the event-to-interval reconciliation core of
`src/aggregate.py` (functions `build_intervals` and `summarize_monthly`).

Modelling conventions:
* A pandas `Timestamp` is its internal value: an integer count of
  nanoseconds since the epoch (`ℤ`).  `total_seconds()` of a difference is
  the nanosecond difference divided by 10^9, and the minute duration of
  `build_intervals` divides that by 60; floats are modelled as exact
  rationals (`ℚ`).
* `Timestamp.isoformat()` is an injective rendering of the timestamp, so
  issue records keep the integer timestamp itself.
* `group.sort_values("timestamp")` sorts a plate's events by timestamp
  ascending; pandas' default sort kind (`quicksort`) is not documented to
  be stable, so the per-plate walk is stated for an arbitrary
  timestamp-sorted permutation of the group, and the whole
  `build_intervals` takes the sorting function as an explicit parameter.
* `events.groupby("plate")` yields the distinct plates in ascending key
  order, each group listing that plate's rows in original order.
* `pd.DataFrame(records)` infers its columns from the records, so an
  empty record list yields a frame with no columns; the explicit
  `pd.DataFrame(columns=[...])` constructors carry their declared columns.
  A dataframe is modelled as its column list plus its row list.
-/

namespace Aggregate

/-- One normalized event row: `plate`, `event` (kind string), `timestamp`
(nanoseconds since epoch). -/
structure Event where
  plate : String
  kind : String
  ts : ℤ
deriving DecidableEq

/-- One record of the `intervals` list built by `build_intervals`. -/
structure IntervalRec where
  plate : String
  entry_time : ℤ
  exit_time : ℤ
  duration_minutes : ℚ
deriving DecidableEq

/-- One record of the `issues` list built by `build_intervals`:
`{"plate": ..., "issue": ..., "timestamp": ...}`. -/
structure Issue where
  plate : String
  issue : String
  ts : ℤ
deriving DecidableEq

/-- The intervals dataframe returned by `build_intervals`: its column
list together with its rows. -/
structure IntervalsDF where
  cols : List String
  rows : List IntervalRec
deriving DecidableEq

/-- The monthly summary row produced by `summarize_monthly`; the month
key is the (year, month) pair that pandas renders as `"YYYY-MM"`. -/
structure MonthlyRow where
  plate : String
  month : ℤ × ℤ
  visits : ℕ
  total_minutes : ℚ
  total_hours : ℚ
deriving DecidableEq

/-- The monthly summary dataframe returned by `summarize_monthly`. -/
structure MonthlyDF where
  cols : List String
  rows : List MonthlyRow
deriving DecidableEq

/-- Python `str.isdigit()` for the ASCII strings plates are: true iff the
string is non-empty and every character is a digit. -/
def isdigit (s : String) : Bool :=
  !s.data.isEmpty && s.data.all Char.isDigit

/-- `(timestamp - open_entry).total_seconds() / 60.0`: nanosecond
difference over 10^9 gives seconds, over 60 gives minutes. -/
def durationMinutes (entry exitTs : ℤ) : ℚ :=
  (((exitTs - entry : ℤ) : ℚ) / 1000000000) / 60

/-- Python `round()` to an integer: round half to even (banker's
rounding), on the exact rational value. -/
def pythonRound (q : ℚ) : ℤ :=
  if q - ⌊q⌋ < 1 / 2 then ⌊q⌋
  else if (1 : ℚ) / 2 < q - ⌊q⌋ then ⌊q⌋ + 1
  else if ⌊q⌋ % 2 = 0 then ⌊q⌋ else ⌊q⌋ + 1

/-- Python `round(x, 2)` on the exact rational value. -/
def round2 (q : ℚ) : ℚ :=
  (pythonRound (q * 100) : ℚ) / 100

/-- Gregorian (year, month) of a day count since 1970-01-01
(Howard Hinnant's `civil_from_days`, day part dropped). -/
def civilYearMonth (z0 : ℤ) : ℤ × ℤ :=
  let z := z0 + 719468
  let era := Int.fdiv z 146097
  let doe := z - era * 146097
  let yoe := Int.fdiv (doe - Int.fdiv doe 1460 + Int.fdiv doe 36524 - Int.fdiv doe 146096) 365
  let y := yoe + era * 400
  let doy := doe - (365 * yoe + Int.fdiv yoe 4 - Int.fdiv yoe 100)
  let mp := Int.fdiv (5 * doy + 2) 153
  let m := mp + (if mp < 10 then 3 else -9)
  (if m ≤ 2 then y + 1 else y, m)

/-- `entry_time.to_period("M")`: the (year, month) the nanosecond
timestamp falls in. -/
def monthKeyOf (ts : ℤ) : ℤ × ℤ :=
  civilYearMonth (Int.fdiv ts (86400 * 1000000000))

/-- The mutable state of the per-plate walk of `build_intervals`: the
`open_entry` slot and the two output accumulators. -/
structure WalkState where
  openEntry : Option ℤ
  intervals : List IntervalRec
  issues : List Issue
deriving DecidableEq

/-- The body of the inner `for _, row in group.iterrows()` loop of
`build_intervals` (src/aggregate.py lines 198-240). -/
def walkStep (em ex p : String) (st : WalkState) (e : Event) : WalkState :=
  if e.kind = em then
    match st.openEntry with
    | some te =>
        ⟨some e.ts, st.intervals,
          st.issues ++ [⟨p, "Consecutive ENTRY without EXIT", te⟩]⟩
    | none => ⟨some e.ts, st.intervals, st.issues⟩
  else if e.kind = ex then
    match st.openEntry with
    | none =>
        ⟨none, st.intervals,
          st.issues ++ [⟨p, "EXIT without matching ENTRY", e.ts⟩]⟩
    | some te =>
        if durationMinutes te e.ts < 0 then
          ⟨none, st.intervals,
            st.issues ++ [⟨p, "EXIT earlier than ENTRY", e.ts⟩]⟩
        else
          ⟨none,
            st.intervals ++ [⟨p, te, e.ts, round2 (durationMinutes te e.ts)⟩],
            st.issues⟩
  else st

/-- The trailing open-slot check after a plate's walk (src/aggregate.py
lines 241-248): a still-open ENTRY becomes an `ENTRY without matching
EXIT` issue at its own timestamp. -/
def finalize (p : String) (fin : WalkState) : List IntervalRec × List Issue :=
  match fin.openEntry with
  | some te =>
      (fin.intervals, fin.issues ++ [⟨p, "ENTRY without matching EXIT", te⟩])
  | none => (fin.intervals, fin.issues)

/-- The whole sorted walk for one non-hazard plate, including the final
open-slot check (src/aggregate.py lines 197-248). -/
def runWalk (em ex p : String) (l : List Event) : List IntervalRec × List Issue :=
  finalize p (l.foldl (walkStep em ex p) ⟨none, [], []⟩)

/-- The body of the per-plate loop of `build_intervals` (src/aggregate.py
lines 185-248), applied to the group already sorted by
`sort_values("timestamp")`: the hazard-plate gate, then the walk. -/
def processPlate (em ex p : String) (sortedGroup : List Event) :
    List IntervalRec × List Issue :=
  if isdigit p then
    ([], sortedGroup.map (fun e => ⟨p, "Hazard plate number", e.ts⟩))
  else runWalk em ex p sortedGroup

/-- String order used for pandas groupby keys. -/
def plateLe (a b : String) : Prop := a < b ∨ a = b

instance : DecidableRel plateLe := fun a b => by
  unfold plateLe
  infer_instance

/-- The columns of the intervals dataframe. -/
def intervalCols : List String :=
  ["plate", "entry_time", "exit_time", "duration_minutes"]

/-- `pd.DataFrame(intervals)` for a list of interval records: columns are
inferred from the records, so an empty list gives no columns. -/
def pdDataFrameOfIntervals (rows : List IntervalRec) : IntervalsDF :=
  ⟨if rows.isEmpty then [] else intervalCols, rows⟩

/-- `build_intervals(events, entry_marker, exit_marker)` of
src/aggregate.py lines 174-251.  `sortGroup` stands for
`sort_values("timestamp")`: the (unspecified-tie-order) sort pandas
applies to each plate's group. -/
def build_intervals (sortGroup : List Event → List Event)
    (em ex : String) (events : List Event) : IntervalsDF × List Issue :=
  if events.isEmpty then (⟨intervalCols, []⟩, [])
  else
    let plates := List.insertionSort plateLe ((events.map (·.plate)).dedup)
    let results :=
      plates.map (fun p =>
        processPlate em ex p (sortGroup (events.filter (fun e => e.plate = p))))
    (pdDataFrameOfIntervals ((results.map (·.1)).flatten),
      (results.map (·.2)).flatten)

/-- The columns of the monthly summary dataframe. -/
def monthlyCols : List String :=
  ["plate", "month", "visits", "total_minutes", "total_hours"]

/-- The groupby key of `summarize_monthly`: the plate together with the
month of `entry_time`. -/
def intervalKey (r : IntervalRec) : String × (ℤ × ℤ) :=
  (r.plate, monthKeyOf r.entry_time)

/-- Order on (plate, month) groupby keys. -/
def monthKeyLe (a b : String × (ℤ × ℤ)) : Prop :=
  a.1 < b.1 ∨ (a.1 = b.1 ∧ (a.2.1 < b.2.1 ∨ (a.2.1 = b.2.1 ∧ a.2.2 ≤ b.2.2)))

instance : DecidableRel monthKeyLe := fun a b => by
  unfold monthKeyLe
  infer_instance

/-- The aggregated row of one (plate, month) groupby key of
`summarize_monthly`: `count` and `sum` of the group's
`duration_minutes`; `total_hours` is rounded from the unrounded sum
divided by 60, and `total_minutes` is the same unrounded sum rounded. -/
def monthlyRowFor (rows : List IntervalRec) (k : String × (ℤ × ℤ)) : MonthlyRow :=
  let grp := rows.filter (fun r => intervalKey r = k)
  let s := (grp.map (·.duration_minutes)).sum
  ⟨k.1, k.2, grp.length, round2 s, round2 (s / 60)⟩

/-- `summarize_monthly(intervals)` of src/aggregate.py lines 254-269:
group the interval rows by (plate, month-of-entry) — pandas emits the
distinct keys in ascending order — and aggregate each group. -/
def summarize_monthly (dfi : IntervalsDF) : MonthlyDF :=
  if dfi.rows.isEmpty then ⟨monthlyCols, []⟩
  else
    let keys := List.insertionSort monthKeyLe ((dfi.rows.map intervalKey).dedup)
    ⟨monthlyCols, keys.map (monthlyRowFor dfi.rows)⟩

/-- Timestamp order on events, the sort key of `sort_values("timestamp")`. -/
def tsLE (a b : Event) : Prop := a.ts ≤ b.ts

instance : DecidableRel tsLE := fun a b => by
  unfold tsLE
  infer_instance

lemma durationMinutes_lt_zero_iff (a b : ℤ) : durationMinutes a b < 0 ↔ b < a := by
  unfold durationMinutes
  rw [div_div, div_lt_iff₀ (by norm_num)]
  constructor
  · intro h
    have h' : ((b : ℚ)) < (a : ℚ) := by push_cast at h; linarith
    exact_mod_cast h'
  · intro h
    have h' : ((b : ℚ)) < (a : ℚ) := by exact_mod_cast h
    push_cast
    linarith

lemma durationMinutes_nonneg_iff (a b : ℤ) : 0 ≤ durationMinutes a b ↔ a ≤ b := by
  rw [← not_lt, durationMinutes_lt_zero_iff, not_lt]

lemma pythonRound_nonneg {q : ℚ} (h : 0 ≤ q) : 0 ≤ pythonRound q := by
  have hf : 0 ≤ ⌊q⌋ := Int.floor_nonneg.2 h
  unfold pythonRound
  split_ifs <;> omega

lemma round2_nonneg {q : ℚ} (h : 0 ≤ q) : 0 ≤ round2 q := by
  have h1 : (0 : ℤ) ≤ pythonRound (q * 100) :=
    pythonRound_nonneg (mul_nonneg h (by norm_num))
  unfold round2
  have h2 : (0 : ℚ) ≤ (pythonRound (q * 100) : ℚ) := by exact_mod_cast h1
  positivity

/-- Two timestamp-sorted lists holding the same events are equal when no
timestamp repeats: the sorted order is then unique, tie-break or not. -/
lemma sorted_perm_eq_of_nodup_ts {l₁ l₂ : List Event}
    (hperm : l₁.Perm l₂) (h₁ : l₁.Pairwise tsLE) (h₂ : l₂.Pairwise tsLE)
    (hn : (l₂.map Event.ts).Nodup) : l₁ = l₂ := by
  haveI : IsAntisymm Event (fun a b => a.ts < b.ts) :=
    ⟨fun a b h h' => absurd h' (not_lt.2 (le_of_lt h))⟩
  have hn₁ : (l₁.map Event.ts).Nodup := ((hperm.map Event.ts).nodup_iff).2 hn
  have hne₂ : l₂.Pairwise (fun a b => a.ts ≠ b.ts) := List.pairwise_map.mp hn
  have hne₁ : l₁.Pairwise (fun a b => a.ts ≠ b.ts) := List.pairwise_map.mp hn₁
  have hlt₂ : l₂.Pairwise (fun a b => a.ts < b.ts) :=
    (h₂.and hne₂).imp (fun h => lt_of_le_of_ne h.1 h.2)
  have hlt₁ : l₁.Pairwise (fun a b => a.ts < b.ts) :=
    (h₁.and hne₁).imp (fun h => lt_of_le_of_ne h.1 h.2)
  exact List.eq_of_perm_of_sorted hperm hlt₁ hlt₂

/-- 1 when the open-entry slot is filled, else 0. -/
def openCount : Option ℤ → ℕ
  | none => 0
  | some _ => 1

lemma walkStep_entry_open (em ex p : String) (st : WalkState) (e : Event) (te : ℤ)
    (hem : e.kind = em) (hoe : st.openEntry = some te) :
    walkStep em ex p st e =
      ⟨some e.ts, st.intervals,
        st.issues ++ [⟨p, "Consecutive ENTRY without EXIT", te⟩]⟩ := by
  unfold walkStep
  rw [if_pos hem, hoe]

lemma walkStep_entry_closed (em ex p : String) (st : WalkState) (e : Event)
    (hem : e.kind = em) (hoe : st.openEntry = none) :
    walkStep em ex p st e = ⟨some e.ts, st.intervals, st.issues⟩ := by
  unfold walkStep
  rw [if_pos hem, hoe]

lemma walkStep_exit_closed (em ex p : String) (st : WalkState) (e : Event)
    (hem : ¬ e.kind = em) (hex : e.kind = ex) (hoe : st.openEntry = none) :
    walkStep em ex p st e =
      ⟨none, st.intervals,
        st.issues ++ [⟨p, "EXIT without matching ENTRY", e.ts⟩]⟩ := by
  unfold walkStep
  rw [if_neg hem, if_pos hex, hoe]

lemma walkStep_exit_neg (em ex p : String) (st : WalkState) (e : Event) (te : ℤ)
    (hem : ¬ e.kind = em) (hex : e.kind = ex) (hoe : st.openEntry = some te)
    (hd : durationMinutes te e.ts < 0) :
    walkStep em ex p st e =
      ⟨none, st.intervals,
        st.issues ++ [⟨p, "EXIT earlier than ENTRY", e.ts⟩]⟩ := by
  unfold walkStep
  rw [if_neg hem, if_pos hex, hoe]
  exact if_pos hd

lemma walkStep_exit_pair (em ex p : String) (st : WalkState) (e : Event) (te : ℤ)
    (hem : ¬ e.kind = em) (hex : e.kind = ex) (hoe : st.openEntry = some te)
    (hd : ¬ durationMinutes te e.ts < 0) :
    walkStep em ex p st e =
      ⟨none,
        st.intervals ++ [⟨p, te, e.ts, round2 (durationMinutes te e.ts)⟩],
        st.issues⟩ := by
  unfold walkStep
  rw [if_neg hem, if_pos hex, hoe]
  exact if_neg hd

lemma walkStep_other (em ex p : String) (st : WalkState) (e : Event)
    (hem : ¬ e.kind = em) (hex : ¬ e.kind = ex) :
    walkStep em ex p st e = st := by
  unfold walkStep
  rw [if_neg hem, if_neg hex]

lemma finalize_some (p : String) (fin : WalkState) (te : ℤ)
    (hoe : fin.openEntry = some te) :
    finalize p fin =
      (fin.intervals, fin.issues ++ [⟨p, "ENTRY without matching EXIT", te⟩]) := by
  unfold finalize
  rw [hoe]

lemma finalize_none (p : String) (fin : WalkState) (hoe : fin.openEntry = none) :
    finalize p fin = (fin.intervals, fin.issues) := by
  unfold finalize
  rw [hoe]

lemma finalize_fst (p : String) (fin : WalkState) :
    (finalize p fin).1 = fin.intervals := by
  unfold finalize
  cases h : fin.openEntry <;> rfl

lemma runWalk_fst (em ex p : String) (l : List Event) :
    (runWalk em ex p l).1 = (l.foldl (walkStep em ex p) ⟨none, [], []⟩).intervals := by
  unfold runWalk
  rw [finalize_fst]

/-- Every interval record the walk accumulates is well-formed: the exit
is at or after the entry and carries the rounded, nonnegative duration. -/
lemma foldl_walk_good (em ex p : String) (l : List Event) :
    ∀ st : WalkState,
      (∀ iv ∈ st.intervals, iv.entry_time ≤ iv.exit_time ∧ 0 ≤ iv.duration_minutes ∧
        iv.duration_minutes = round2 (durationMinutes iv.entry_time iv.exit_time)) →
      ∀ iv ∈ (l.foldl (walkStep em ex p) st).intervals,
        iv.entry_time ≤ iv.exit_time ∧ 0 ≤ iv.duration_minutes ∧
          iv.duration_minutes = round2 (durationMinutes iv.entry_time iv.exit_time) := by
  induction l with
  | nil => intro st h; simpa using h
  | cons e rest ih =>
    intro st hst
    rw [List.foldl_cons]
    apply ih
    intro iv hiv
    by_cases hem : e.kind = em
    · cases hoe : st.openEntry with
      | some te =>
        rw [walkStep_entry_open em ex p st e te hem hoe] at hiv
        exact hst iv hiv
      | none =>
        rw [walkStep_entry_closed em ex p st e hem hoe] at hiv
        exact hst iv hiv
    · by_cases hex : e.kind = ex
      · cases hoe : st.openEntry with
        | none =>
          rw [walkStep_exit_closed em ex p st e hem hex hoe] at hiv
          exact hst iv hiv
        | some te =>
          by_cases hd : durationMinutes te e.ts < 0
          · rw [walkStep_exit_neg em ex p st e te hem hex hoe hd] at hiv
            exact hst iv hiv
          · rw [walkStep_exit_pair em ex p st e te hem hex hoe hd] at hiv
            have hiv' : iv ∈ st.intervals ++
                [⟨p, te, e.ts, round2 (durationMinutes te e.ts)⟩] := hiv
            rcases List.mem_append.mp hiv' with hiv'' | hiv''
            · exact hst iv hiv''
            · have hle : te ≤ e.ts :=
                (durationMinutes_nonneg_iff te e.ts).1 (not_lt.1 hd)
              have hnn : 0 ≤ durationMinutes te e.ts :=
                (durationMinutes_nonneg_iff te e.ts).2 hle
              rcases List.mem_singleton.mp hiv'' with rfl
              exact ⟨hle, round2_nonneg hnn, rfl⟩
      · rw [walkStep_other em ex p st e hem hex] at hiv
        exact hst iv hiv

/-- Counting invariant of the walk on a timestamp-sorted group all of
whose events are entries or exits: each processed event adds exactly one
to twice the interval count plus the issue count plus the open slot. -/
lemma foldl_walk_count (em ex p : String) (l : List Event) :
    ∀ st : WalkState,
      (∀ e ∈ l, e.kind = em ∨ e.kind = ex) →
      l.Pairwise tsLE →
      (∀ te, st.openEntry = some te → ∀ e ∈ l, te ≤ e.ts) →
      2 * (l.foldl (walkStep em ex p) st).intervals.length
        + (l.foldl (walkStep em ex p) st).issues.length
        + openCount (l.foldl (walkStep em ex p) st).openEntry
      = 2 * st.intervals.length + st.issues.length + openCount st.openEntry
        + l.length := by
  induction l with
  | nil => intro st _ _ _; simp
  | cons e rest ih =>
    intro st hk hs hb
    have hkrest : ∀ e' ∈ rest, e'.kind = em ∨ e'.kind = ex :=
      fun e' h => hk e' (List.mem_cons_of_mem _ h)
    have hsrest : rest.Pairwise tsLE := (List.pairwise_cons.mp hs).2
    have hhead : ∀ e' ∈ rest, e.ts ≤ e'.ts :=
      fun e' h => (List.pairwise_cons.mp hs).1 e' h
    rw [List.foldl_cons]
    by_cases hem : e.kind = em
    · cases hoe : st.openEntry with
      | some te =>
        rw [walkStep_entry_open em ex p st e te hem hoe,
          ih _ hkrest hsrest (fun te' hte' e' he' => by
            simp only [Option.some.injEq] at hte'
            exact hte' ▸ hhead e' he')]
        simp [openCount, hoe]
        omega
      | none =>
        rw [walkStep_entry_closed em ex p st e hem hoe,
          ih _ hkrest hsrest (fun te' hte' e' he' => by
            simp only [Option.some.injEq] at hte'
            exact hte' ▸ hhead e' he')]
        simp [openCount, hoe]
        omega
    · have hex : e.kind = ex := (hk e (List.mem_cons_self e rest)).resolve_left hem
      cases hoe : st.openEntry with
      | none =>
        rw [walkStep_exit_closed em ex p st e hem hex hoe,
          ih _ hkrest hsrest (fun te' hte' => by simp at hte')]
        simp [openCount, hoe]
        omega
      | some te =>
        have hle : te ≤ e.ts := hb te hoe e (List.mem_cons_self e rest)
        have hd : ¬ durationMinutes te e.ts < 0 := by
          rw [durationMinutes_lt_zero_iff]
          omega
        rw [walkStep_exit_pair em ex p st e te hem hex hoe hd,
          ih _ hkrest hsrest (fun te' hte' => by simp at hte')]
        simp [openCount, hoe]
        omega

/-- C1: for a non-hazard plate whose events all carry the entry or the
exit marker, the walk of `build_intervals` (here `processPlate` on any
timestamp-sorted permutation of the plate's group) accounts for every
event exactly once: the group's event count equals twice the number of
emitted intervals (each interval consumes one ENTRY and one EXIT) plus
the number of anomaly records, so no event is dropped or double
counted. -/
theorem c1_events_accounted_once (em ex p : String) (g gs : List Event)
    (hp : isdigit p = false)
    (hk : ∀ e ∈ g, e.kind = em ∨ e.kind = ex)
    (hsorted : gs.Pairwise tsLE) (hperm : gs.Perm g) :
    g.length =
      2 * (processPlate em ex p gs).1.length + (processPlate em ex p gs).2.length := by
  have hkgs : ∀ e ∈ gs, e.kind = em ∨ e.kind = ex := fun e he => hk e (hperm.subset he)
  have hlen : gs.length = g.length := hperm.length_eq
  have hcount := foldl_walk_count em ex p gs ⟨none, [], []⟩ hkgs hsorted
    (fun te hte => by simp at hte)
  have hp' : ¬ (isdigit p = true) := by simp [hp]
  unfold processPlate
  rw [if_neg hp']
  unfold runWalk
  cases hfin : (List.foldl (walkStep em ex p) ⟨none, [], []⟩ gs).openEntry with
  | none =>
    rw [finalize_none p _ hfin]
    rw [hfin] at hcount
    simp [openCount] at hcount
    dsimp only
    omega
  | some te =>
    rw [finalize_some p _ te hfin]
    rw [hfin] at hcount
    simp [openCount] at hcount
    dsimp only
    rw [List.length_append]
    simp only [List.length_singleton]
    omega

/-- C3: for an all-digits plate, the per-plate walk of `build_intervals`
emits no intervals, and its anomaly list is exactly one
`Hazard plate number` issue per event of the group, each carrying that
event's own timestamp. -/
theorem c3_hazard_plate (em ex p : String) (g gs : List Event)
    (hp : isdigit p = true) (hperm : gs.Perm g) :
    (processPlate em ex p gs).1 = [] ∧
    (processPlate em ex p gs).2.Perm
      (g.map (fun e => (⟨p, "Hazard plate number", e.ts⟩ : Issue))) := by
  unfold processPlate
  rw [if_pos hp]
  exact ⟨rfl, hperm.map _⟩

/-- C4: an ENTRY observed while a previous ENTRY is still open makes the
walk of `build_intervals` emit a `Consecutive ENTRY without EXIT`
anomaly timestamped at the previously open entry's time and overwrite
the slot with the new ENTRY's timestamp; consequently the scenario
ENTRY@t1, ENTRY@t2, EXIT@t3 (t1 < t2 < t3) yields exactly one such
anomaly at t1 and one interval from t2 to t3. -/
theorem c4_consecutive_entry (em ex p : String) :
    (∀ (st : WalkState) (te : ℤ) (e : Event), e.kind = em → st.openEntry = some te →
        walkStep em ex p st e =
          ⟨some e.ts, st.intervals,
            st.issues ++ [⟨p, "Consecutive ENTRY without EXIT", te⟩]⟩) ∧
    (∀ (t1 t2 t3 : ℤ) (gs : List Event), isdigit p = false → em ≠ ex →
        t1 < t2 → t2 < t3 → gs.Pairwise tsLE →
        gs.Perm [⟨p, em, t1⟩, ⟨p, em, t2⟩, ⟨p, ex, t3⟩] →
        processPlate em ex p gs =
          ([⟨p, t2, t3, round2 (durationMinutes t2 t3)⟩],
            [⟨p, "Consecutive ENTRY without EXIT", t1⟩])) := by
  constructor
  · intro st te e hem hoe
    exact walkStep_entry_open em ex p st e te hem hoe
  · intro t1 t2 t3 gs hp hne h12 h23 hsorted hperm
    have hsorted₂ :
        ([⟨p, em, t1⟩, ⟨p, em, t2⟩, ⟨p, ex, t3⟩] : List Event).Pairwise tsLE := by
      refine List.Pairwise.cons (fun a' ha' => ?_)
        (List.Pairwise.cons (fun a' ha' => ?_) (List.pairwise_singleton _ _))
      · rcases List.mem_cons.mp ha' with rfl | ha'
        · show t1 ≤ t2
          omega
        · rcases List.mem_singleton.mp ha' with rfl
          show t1 ≤ t3
          omega
      · rcases List.mem_singleton.mp ha' with rfl
        show t2 ≤ t3
        omega
    have hnd : (([⟨p, em, t1⟩, ⟨p, em, t2⟩, ⟨p, ex, t3⟩] : List Event).map
        Event.ts).Nodup := by
      simp
      omega
    have hgs : gs = [⟨p, em, t1⟩, ⟨p, em, t2⟩, ⟨p, ex, t3⟩] :=
      sorted_perm_eq_of_nodup_ts hperm hsorted hsorted₂ hnd
    subst hgs
    have hxm : ¬ ((⟨p, ex, t3⟩ : Event).kind = em) := fun h => hne (h.symm)
    have hd : ¬ durationMinutes t2 t3 < 0 := by
      rw [durationMinutes_lt_zero_iff]
      omega
    have hp' : ¬ (isdigit p = true) := by simp [hp]
    unfold processPlate
    rw [if_neg hp']
    unfold runWalk
    rw [List.foldl_cons, List.foldl_cons, List.foldl_cons, List.foldl_nil]
    rw [walkStep_entry_closed em ex p ⟨none, [], []⟩ ⟨p, em, t1⟩ rfl rfl]
    rw [walkStep_entry_open em ex p ⟨some t1, [], []⟩ ⟨p, em, t2⟩ t1 rfl rfl]
    dsimp only [List.nil_append]
    rw [walkStep_exit_pair em ex p
      ⟨some t2, [], [⟨p, "Consecutive ENTRY without EXIT", t1⟩]⟩
      ⟨p, ex, t3⟩ t2 hxm rfl rfl hd]
    rfl

/-- C6: every interval record `build_intervals` emits — for any sorting
function, markers and input — has its exit at or after its entry, and
its `duration_minutes` is the entry-to-exit difference in minutes
rounded to two decimals, hence nonnegative. -/
theorem c6_interval_wellformed (sortGroup : List Event → List Event)
    (em ex : String) (events : List Event) :
    ∀ iv ∈ (build_intervals sortGroup em ex events).1.rows,
      iv.entry_time ≤ iv.exit_time ∧ 0 ≤ iv.duration_minutes ∧
        iv.duration_minutes = round2 (durationMinutes iv.entry_time iv.exit_time) := by
  intro iv hiv
  unfold build_intervals at hiv
  by_cases he : events.isEmpty
  · rw [if_pos he] at hiv
    simp at hiv
  · rw [if_neg he] at hiv
    have hiv' : iv ∈ (((List.insertionSort plateLe ((events.map (·.plate)).dedup)).map
        (fun p => processPlate em ex p
          (sortGroup (events.filter (fun e => e.plate = p))))).map (·.1)).flatten := hiv
    rcases List.mem_flatten.mp hiv' with ⟨l', hl', hivl⟩
    rcases List.mem_map.mp hl' with ⟨pr, hpr, rfl⟩
    rcases List.mem_map.mp hpr with ⟨p, hpmem, rfl⟩
    unfold processPlate at hivl
    by_cases hdig : isdigit p = true
    · rw [if_pos hdig] at hivl
      simp at hivl
    · rw [if_neg hdig] at hivl
      rw [runWalk_fst] at hivl
      exact foldl_walk_good em ex p _ ⟨none, [], []⟩ (by simp) iv hivl

/-- C7: an EXIT observed while no ENTRY slot is open makes the walk of
`build_intervals` emit exactly one `EXIT without matching ENTRY` anomaly
at the EXIT's own timestamp, no interval, and leave the slot closed; a
lone EXIT@t1 group therefore yields exactly that one anomaly and zero
intervals. -/
theorem c7_exit_without_entry (em ex p : String) :
    (∀ (st : WalkState) (e : Event), e.kind = ex → e.kind ≠ em →
        st.openEntry = none →
        walkStep em ex p st e =
          ⟨none, st.intervals,
            st.issues ++ [⟨p, "EXIT without matching ENTRY", e.ts⟩]⟩) ∧
    (∀ (t1 : ℤ) (gs : List Event), isdigit p = false → ex ≠ em →
        gs.Perm [⟨p, ex, t1⟩] →
        processPlate em ex p gs = ([], [⟨p, "EXIT without matching ENTRY", t1⟩])) := by
  constructor
  · intro st e hex hem hoe
    exact walkStep_exit_closed em ex p st e hem hex hoe
  · intro t1 gs hp hne hperm
    have hgs : gs = [⟨p, ex, t1⟩] := List.perm_singleton.mp hperm
    subst hgs
    have hp' : ¬ (isdigit p = true) := by simp [hp]
    unfold processPlate
    rw [if_neg hp']
    unfold runWalk
    rw [List.foldl_cons, List.foldl_nil]
    rw [walkStep_exit_closed em ex p ⟨none, [], []⟩ ⟨p, ex, t1⟩ hne rfl rfl]
    rfl

/-- C8: when the walk of `build_intervals` matches an EXIT against an
open ENTRY and the computed duration is negative, it emits an
`EXIT earlier than ENTRY` anomaly timestamped at the EXIT's time,
clears the open slot, and emits no interval for the pair. -/
theorem c8_exit_before_entry (em ex p : String) (st : WalkState) (te : ℤ)
    (e : Event) (hex : e.kind = ex) (hem : e.kind ≠ em)
    (hoe : st.openEntry = some te) (hd : durationMinutes te e.ts < 0) :
    walkStep em ex p st e =
      ⟨none, st.intervals, st.issues ++ [⟨p, "EXIT earlier than ENTRY", e.ts⟩]⟩ :=
  walkStep_exit_neg em ex p st e te hem hex hoe hd

/-- C10: an event whose kind matches neither the entry marker nor the
exit marker is silently skipped by the walk of `build_intervals`: the
step leaves the state untouched, so inserting such an event anywhere in
a plate's walk changes neither the intervals nor the anomalies. -/
theorem c10_unknown_kind_skipped (em ex p : String) (u : Event)
    (h1 : u.kind ≠ em) (h2 : u.kind ≠ ex) :
    (∀ st : WalkState, walkStep em ex p st u = st) ∧
    (∀ l₁ l₂ : List Event,
        runWalk em ex p (l₁ ++ u :: l₂) = runWalk em ex p (l₁ ++ l₂)) := by
  have hstep : ∀ st, walkStep em ex p st u = st :=
    fun st => walkStep_other em ex p st u h1 h2
  refine ⟨hstep, ?_⟩
  intro l₁ l₂
  unfold runWalk
  congr 1
  rw [List.foldl_append, List.foldl_cons, hstep, ← List.foldl_append]

/-- C9 (bug evidence): on empty input `build_intervals` returns the
declared four-column empty intervals frame and no issues, and
`summarize_monthly` of it the declared five-column empty frame; but on a
non-empty input that yields zero intervals (here one hazard-plate event)
the intervals frame is `pd.DataFrame([])`, which has no columns at all —
not the declared shape. -/
theorem c9_zero_intervals_shape (sortGroup : List Event → List Event) :
    (build_intervals id "01 ENTRY" "02 EXIT" []).1.cols = intervalCols ∧
    (build_intervals id "01 ENTRY" "02 EXIT" []).1.rows = [] ∧
    (build_intervals id "01 ENTRY" "02 EXIT" []).2 = [] ∧
    (summarize_monthly (build_intervals id "01 ENTRY" "02 EXIT" []).1).cols
      = monthlyCols ∧
    (summarize_monthly (build_intervals id "01 ENTRY" "02 EXIT" []).1).rows = [] ∧
    (build_intervals sortGroup "01 ENTRY" "02 EXIT"
        [⟨"1234", "01 ENTRY", 0⟩]).1.rows = [] ∧
    (build_intervals sortGroup "01 ENTRY" "02 EXIT"
        [⟨"1234", "01 ENTRY", 0⟩]).1.cols = [] ∧
    intervalCols ≠ [] := by
  have hfst : ∀ l : List Event,
      (processPlate "01 ENTRY" "02 EXIT" "1234" l).1 = [] := by
    intro l
    unfold processPlate
    rw [if_pos (by decide)]
  refine ⟨rfl, rfl, rfl, rfl, rfl, ?_, ?_, by decide⟩
  · have h : (build_intervals sortGroup "01 ENTRY" "02 EXIT"
        [⟨"1234", "01 ENTRY", 0⟩]).1.rows =
        ((([("1234" : String)].map (fun p => processPlate "01 ENTRY" "02 EXIT" p
          (sortGroup ([⟨"1234", "01 ENTRY", 0⟩].filter
            (fun e => e.plate = p))))).map (·.1)).flatten) := by
      unfold build_intervals
      rw [if_neg (by decide)]
      rfl
    rw [h]
    simp [hfst]
  · have h : (build_intervals sortGroup "01 ENTRY" "02 EXIT"
        [⟨"1234", "01 ENTRY", 0⟩]).1.cols =
        (pdDataFrameOfIntervals ((([("1234" : String)].map
          (fun p => processPlate "01 ENTRY" "02 EXIT" p
            (sortGroup ([⟨"1234", "01 ENTRY", 0⟩].filter
              (fun e => e.plate = p))))).map (·.1)).flatten)).cols := by
      unfold build_intervals
      rw [if_neg (by decide)]
      rfl
    rw [h]
    simp [hfst, pdDataFrameOfIntervals]

/-- C5: `summarize_monthly` groups intervals by plate and by the month
key of `entry_time` (never `exit_time`): every output row's visit count
is the size of its (plate, entry-month) group, its `total_minutes` is
the group's unrounded sum of `duration_minutes` rounded to two decimals,
and its `total_hours` is the same unrounded sum divided by 60 and then
rounded; every input interval's (plate, entry-month) key is represented,
and no key is represented twice. -/
theorem c5_monthly_summary (dfi : IntervalsDF) :
    (∀ row ∈ (summarize_monthly dfi).rows,
        row.visits =
          (dfi.rows.filter (fun r => intervalKey r = (row.plate, row.month))).length ∧
        row.total_minutes = round2
          (((dfi.rows.filter (fun r => intervalKey r = (row.plate, row.month))).map
            (·.duration_minutes)).sum) ∧
        row.total_hours = round2
          ((((dfi.rows.filter (fun r => intervalKey r = (row.plate, row.month))).map
            (·.duration_minutes)).sum) / 60)) ∧
    (∀ r ∈ dfi.rows, ∃ row ∈ (summarize_monthly dfi).rows,
        row.plate = r.plate ∧ row.month = monthKeyOf r.entry_time) ∧
    ((summarize_monthly dfi).rows.map (fun row => (row.plate, row.month))).Nodup := by
  by_cases he : dfi.rows.isEmpty
  · have hre : dfi.rows = [] := by
      cases hd : dfi.rows
      · rfl
      · rw [hd] at he
        simp at he
    refine ⟨?_, ?_, ?_⟩
    · intro row hrow
      unfold summarize_monthly at hrow
      rw [if_pos he] at hrow
      simp at hrow
    · intro r hr
      rw [hre] at hr
      simp at hr
    · unfold summarize_monthly
      rw [if_pos he]
      simp
  · have hrows : (summarize_monthly dfi).rows =
        (List.insertionSort monthKeyLe ((dfi.rows.map intervalKey).dedup)).map
          (monthlyRowFor dfi.rows) := by
      unfold summarize_monthly
      rw [if_neg he]
    refine ⟨?_, ?_, ?_⟩
    · intro row hrow
      rw [hrows] at hrow
      rcases List.mem_map.mp hrow with ⟨k, hk, rfl⟩
      exact ⟨rfl, rfl, rfl⟩
    · intro r hr
      have hkmem : intervalKey r ∈ (dfi.rows.map intervalKey).dedup :=
        List.mem_dedup.mpr (List.mem_map_of_mem _ hr)
      have hkmem' : intervalKey r ∈
          List.insertionSort monthKeyLe ((dfi.rows.map intervalKey).dedup) :=
        ((List.perm_insertionSort monthKeyLe _).mem_iff).mpr hkmem
      refine ⟨monthlyRowFor dfi.rows (intervalKey r), ?_, rfl, rfl⟩
      rw [hrows]
      exact List.mem_map_of_mem _ hkmem'
    · rw [hrows, List.map_map]
      have hfun : ((fun row : MonthlyRow => (row.plate, row.month)) ∘
          monthlyRowFor dfi.rows) = id := by
        funext k
        rfl
      rw [hfun, List.map_id]
      exact ((List.perm_insertionSort monthKeyLe _).nodup_iff).mpr
        (List.nodup_dedup _)

/-- Witness for C1: a clean ENTRY/EXIT pair of plate AB12CD is accounted
as one interval and no anomaly. -/
theorem c1_events_accounted_once_witness :
    isdigit "AB12CD" = false ∧
    (∀ e ∈ ([⟨"AB12CD", "01 ENTRY", 0⟩, ⟨"AB12CD", "02 EXIT", 60000000000⟩] :
        List Event), e.kind = "01 ENTRY" ∨ e.kind = "02 EXIT") ∧
    ([⟨"AB12CD", "01 ENTRY", 0⟩, ⟨"AB12CD", "02 EXIT", 60000000000⟩] :
        List Event).Pairwise tsLE ∧
    ([⟨"AB12CD", "01 ENTRY", 0⟩, ⟨"AB12CD", "02 EXIT", 60000000000⟩] :
        List Event).Perm
      [⟨"AB12CD", "01 ENTRY", 0⟩, ⟨"AB12CD", "02 EXIT", 60000000000⟩] ∧
    ([⟨"AB12CD", "01 ENTRY", 0⟩, ⟨"AB12CD", "02 EXIT", 60000000000⟩] :
        List Event).length =
      2 * (processPlate "01 ENTRY" "02 EXIT" "AB12CD"
        [⟨"AB12CD", "01 ENTRY", 0⟩, ⟨"AB12CD", "02 EXIT", 60000000000⟩]).1.length +
      (processPlate "01 ENTRY" "02 EXIT" "AB12CD"
        [⟨"AB12CD", "01 ENTRY", 0⟩, ⟨"AB12CD", "02 EXIT", 60000000000⟩]).2.length :=
  ⟨by decide, by decide, by decide, by decide,
    c1_events_accounted_once "01 ENTRY" "02 EXIT" "AB12CD" _ _
      (by decide) (by decide) (by decide) (by decide)⟩

/-- Witness for C3: a single event of all-digits plate 1234 becomes one
hazard anomaly and no interval. -/
theorem c3_hazard_plate_witness :
    isdigit "1234" = true ∧
    ([⟨"1234", "01 ENTRY", 5⟩] : List Event).Perm [⟨"1234", "01 ENTRY", 5⟩] ∧
    ((processPlate "01 ENTRY" "02 EXIT" "1234" [⟨"1234", "01 ENTRY", 5⟩]).1 = [] ∧
      (processPlate "01 ENTRY" "02 EXIT" "1234" [⟨"1234", "01 ENTRY", 5⟩]).2.Perm
        (([⟨"1234", "01 ENTRY", 5⟩] : List Event).map
          (fun e => (⟨"1234", "Hazard plate number", e.ts⟩ : Issue)))) :=
  ⟨by decide, by decide,
    c3_hazard_plate "01 ENTRY" "02 EXIT" "1234" _ _ (by decide) (by decide)⟩

/-- Witness for C4: ENTRY@0, ENTRY@1, EXIT@2 for plate AB12CD yields the
anomaly at 0 and the interval from 1 to 2. -/
theorem c4_consecutive_entry_witness :
    isdigit "AB12CD" = false ∧
    ("01 ENTRY" : String) ≠ "02 EXIT" ∧
    (0 : ℤ) < 1 ∧ (1 : ℤ) < 2 ∧
    ([⟨"AB12CD", "01 ENTRY", 0⟩, ⟨"AB12CD", "01 ENTRY", 1⟩,
      ⟨"AB12CD", "02 EXIT", 2⟩] : List Event).Pairwise tsLE ∧
    ([⟨"AB12CD", "01 ENTRY", 0⟩, ⟨"AB12CD", "01 ENTRY", 1⟩,
      ⟨"AB12CD", "02 EXIT", 2⟩] : List Event).Perm
      [⟨"AB12CD", "01 ENTRY", 0⟩, ⟨"AB12CD", "01 ENTRY", 1⟩,
        ⟨"AB12CD", "02 EXIT", 2⟩] ∧
    processPlate "01 ENTRY" "02 EXIT" "AB12CD"
      [⟨"AB12CD", "01 ENTRY", 0⟩, ⟨"AB12CD", "01 ENTRY", 1⟩,
        ⟨"AB12CD", "02 EXIT", 2⟩] =
      ([⟨"AB12CD", 1, 2, round2 (durationMinutes 1 2)⟩],
        [⟨"AB12CD", "Consecutive ENTRY without EXIT", 0⟩]) :=
  ⟨by decide, by decide, by decide, by decide, by decide, by decide,
    (c4_consecutive_entry "01 ENTRY" "02 EXIT" "AB12CD").2 0 1 2 _
      (by decide) (by decide) (by decide) (by decide) (by decide) (by decide)⟩

/-- Witness for C5: a one-interval frame for plate AB12CD entering at the
epoch is summarized under key (plate AB12CD, 1970-01). -/
theorem c5_monthly_summary_witness :
    (⟨"AB12CD", 0, 60000000000, 1⟩ : IntervalRec) ∈
      (⟨intervalCols, [⟨"AB12CD", 0, 60000000000, 1⟩]⟩ : IntervalsDF).rows ∧
    ∃ row ∈ (summarize_monthly
        ⟨intervalCols, [⟨"AB12CD", 0, 60000000000, 1⟩]⟩).rows,
      row.plate = "AB12CD" ∧ row.month = monthKeyOf 0 :=
  ⟨List.mem_singleton.mpr rfl,
    (c5_monthly_summary ⟨intervalCols, [⟨"AB12CD", 0, 60000000000, 1⟩]⟩).2.1 _
      (List.mem_singleton.mpr rfl)⟩

/-- Witness for C6: the interval produced by a one-minute stay of plate
AB12CD is well-formed. -/
theorem c6_interval_wellformed_witness :
    (⟨"AB12CD", 0, 60000000000, round2 (durationMinutes 0 60000000000)⟩ :
        IntervalRec) ∈
      (build_intervals id "01 ENTRY" "02 EXIT"
        [⟨"AB12CD", "01 ENTRY", 0⟩, ⟨"AB12CD", "02 EXIT", 60000000000⟩]).1.rows ∧
    ((0 : ℤ) ≤ 60000000000 ∧
      0 ≤ round2 (durationMinutes 0 60000000000) ∧
      round2 (durationMinutes 0 60000000000) = round2 (durationMinutes 0 60000000000)) :=
  have hg : ¬ durationMinutes 0 60000000000 < 0 := by
    rw [durationMinutes_lt_zero_iff]
    decide
  have hmem : (⟨"AB12CD", 0, 60000000000, round2 (durationMinutes 0 60000000000)⟩ :
      IntervalRec) ∈
      (build_intervals id "01 ENTRY" "02 EXIT"
        [⟨"AB12CD", "01 ENTRY", 0⟩, ⟨"AB12CD", "02 EXIT", 60000000000⟩]).1.rows := by
    have hrows : (build_intervals id "01 ENTRY" "02 EXIT"
        [⟨"AB12CD", "01 ENTRY", 0⟩, ⟨"AB12CD", "02 EXIT", 60000000000⟩]).1.rows =
        [⟨"AB12CD", 0, 60000000000, round2 (durationMinutes 0 60000000000)⟩] := by
      have hdig : isdigit "AB12CD" = false := by decide
      unfold build_intervals
      rw [if_neg (by decide)]
      simp [processPlate, runWalk, finalize, walkStep, pdDataFrameOfIntervals,
        hg, hdig]
    rw [hrows]
    exact List.mem_singleton.mpr rfl
  ⟨hmem, c6_interval_wellformed id "01 ENTRY" "02 EXIT"
    [⟨"AB12CD", "01 ENTRY", 0⟩, ⟨"AB12CD", "02 EXIT", 60000000000⟩] _ hmem⟩

/-- Witness for C7: a lone EXIT@7 of plate AB12CD becomes exactly one
anomaly at 7 and no interval. -/
theorem c7_exit_without_entry_witness :
    isdigit "AB12CD" = false ∧
    ("02 EXIT" : String) ≠ "01 ENTRY" ∧
    ([⟨"AB12CD", "02 EXIT", 7⟩] : List Event).Perm [⟨"AB12CD", "02 EXIT", 7⟩] ∧
    processPlate "01 ENTRY" "02 EXIT" "AB12CD" [⟨"AB12CD", "02 EXIT", 7⟩] =
      ([], [⟨"AB12CD", "EXIT without matching ENTRY", 7⟩]) :=
  ⟨by decide, by decide, by decide,
    (c7_exit_without_entry "01 ENTRY" "02 EXIT" "AB12CD").2 7 _
      (by decide) (by decide) (by decide)⟩

/-- Witness for C8: an EXIT@40 matched against an open ENTRY@100 is the
negative-duration branch: one anomaly at 40, slot cleared, no
interval. -/
theorem c8_exit_before_entry_witness :
    (⟨"AB12CD", "02 EXIT", 40⟩ : Event).kind = "02 EXIT" ∧
    (⟨"AB12CD", "02 EXIT", 40⟩ : Event).kind ≠ "01 ENTRY" ∧
    (⟨some 100, [], []⟩ : WalkState).openEntry = some 100 ∧
    durationMinutes 100 40 < 0 ∧
    walkStep "01 ENTRY" "02 EXIT" "AB12CD" ⟨some 100, [], []⟩
        ⟨"AB12CD", "02 EXIT", 40⟩ =
      ⟨none, [], [] ++ [⟨"AB12CD", "EXIT earlier than ENTRY", 40⟩]⟩ :=
  have hd : durationMinutes 100 40 < 0 := by
    rw [durationMinutes_lt_zero_iff]
    decide
  ⟨rfl, by decide, rfl, hd,
    c8_exit_before_entry "01 ENTRY" "02 EXIT" "AB12CD" ⟨some 100, [], []⟩ 100
      ⟨"AB12CD", "02 EXIT", 40⟩ rfl (by decide) rfl hd⟩

/-- Witness for C10: an event of unknown kind 03 WEIRD leaves the state
unchanged and vanishes from a walk containing it. -/
theorem c10_unknown_kind_skipped_witness :
    (⟨"AB12CD", "03 WEIRD", 5⟩ : Event).kind ≠ "01 ENTRY" ∧
    (⟨"AB12CD", "03 WEIRD", 5⟩ : Event).kind ≠ "02 EXIT" ∧
    walkStep "01 ENTRY" "02 EXIT" "AB12CD" ⟨none, [], []⟩
        ⟨"AB12CD", "03 WEIRD", 5⟩ = ⟨none, [], []⟩ ∧
    runWalk "01 ENTRY" "02 EXIT" "AB12CD"
        ([⟨"AB12CD", "01 ENTRY", 0⟩] ++ ⟨"AB12CD", "03 WEIRD", 5⟩ ::
          [⟨"AB12CD", "02 EXIT", 60000000000⟩]) =
      runWalk "01 ENTRY" "02 EXIT" "AB12CD"
        ([⟨"AB12CD", "01 ENTRY", 0⟩] ++ [⟨"AB12CD", "02 EXIT", 60000000000⟩]) :=
  ⟨by decide, by decide,
    (c10_unknown_kind_skipped "01 ENTRY" "02 EXIT" "AB12CD"
      ⟨"AB12CD", "03 WEIRD", 5⟩ (by decide) (by decide)).1 ⟨none, [], []⟩,
    (c10_unknown_kind_skipped "01 ENTRY" "02 EXIT" "AB12CD"
      ⟨"AB12CD", "03 WEIRD", 5⟩ (by decide) (by decide)).2
      [⟨"AB12CD", "01 ENTRY", 0⟩] [⟨"AB12CD", "02 EXIT", 60000000000⟩]⟩

end Aggregate
